import Mathlib

/-!
Verification of the message-body classification and decoding engine of
`ton_client/src/abi/decode_message.rs` (tonlabs/ever-sdk).

The decoder orchestrates external collaborators: the cell-cursor library
(`ton_types::SliceData`), the token codec (`ton_abi::TokenValue`,
`Detokenizer`, `Function::decode_header`) and the ABI descriptor
(`ton_sdk::AbiContract`).  Those are modelled abstractly, as function
fields of `Collab` and `AbiContract`; the decoder itself is translated
line by line from the source.
-/

namespace EverSdk

/-- Modelled from the spec: the structured, recoverable decode error
(`crate::abi::Error::invalid_message_for_decode`, whose definition is not
among the given sources; the spec says errors are "returned to the caller as
structured, recoverable results").  Every error of the decoder is built by
this one constructor from a message string, so the model keeps the string. -/
structure ClientError where
  message : String
deriving DecidableEq, Repr

/-- Function `Error::invalid_message_for_decode`: wraps a message into the decode error. -/
def Error.invalid_message_for_decode (msg : String) : ClientError :=
  { message := msg }

/-- Enum `MessageBodyType` (decode_message.rs lines 15–31). -/
inductive MessageBodyType where
  | Input
  | Output
  | InternalOutput
  | Event
deriving DecidableEq, Repr

/-- Method `MessageBodyType::is_output` (lines 33–40). -/
def MessageBodyType.is_output : MessageBodyType → Bool
  | .InternalOutput | .Output => true
  | _ => false

/-- Struct `ton_abi::Function`, external collaborator: only the fields the decoder
reads (name and output parameter schema; the schema type is abstract). -/
structure Function (Params : Type) where
  name : String
  output_params : Params

/-- Struct `ResponsibleCall` (lines 42–46).  `answer_id: u32` is modelled as `Nat`:
it is only compared for equality with the selector read from the body. -/
structure ResponsibleCall (Params Addr : Type) where
  function : Function Params
  src : Addr
  answer_id : Nat

/-- Struct `ton_abi::contract::DecodedMessage`, external collaborator: the matched
function name plus the decoded tokens. -/
structure DecodedMessage (Token : Type) where
  function_name : String
  tokens : List Token
deriving DecidableEq, Repr

/-- Descriptor `ton_sdk::AbiContract` (= `ton_abi::Contract`), external collaborator:
the operations the decoder calls on the ABI descriptor, as abstract function
fields.  `events_contains name` models `abi.events().get(name).is_some()`. -/
structure AbiContract (Slice Token Params HdrSchema Version : Type) where
  version : Version
  header : HdrSchema
  decode_output : Slice → Bool → Bool → Except String (DecodedMessage Token)
  decode_input : Slice → Bool → Bool → Except String (DecodedMessage Token)
  events_contains : String → Bool

/-- The remaining external collaborators used by the decoder:
`SliceData::get_next_u32` (reads the leading 32-bit selector, returning it
with the rest of the cursor, or a read error on a too-short body),
`TokenValue::decode_params`, `ton_abi::Function::decode_header` (the source
destructures its result as `let (header, _, _) = ...`, so only the first
component is modelled), `Detokenizer::detokenize_to_json_value`, and the
crate's `FunctionHeader::from` conversion (repo code outside the given
sources; only its `ClientResult<Option<FunctionHeader>>` shape is used). -/
structure Collab (Slice Token Value HdrTok Params HdrSchema Version FH : Type) where
  get_next_u32 : Slice → Except String (Nat × Slice)
  decode_params : Params → Slice → Version → Bool → Except String (List Token)
  decode_header : Version → Slice → HdrSchema → Bool → Except String HdrTok
  detokenize : List Token → Except String Value
  header_from : HdrTok → Except ClientError (Option FH)

/-- Struct `DecodedMessageBody` (lines 48–61). -/
structure DecodedMessageBody (Value FH : Type) where
  body_type : MessageBodyType
  name : String
  value : Option Value
  header : Option FH
deriving DecidableEq, Repr

variable {Slice Addr Token Value HdrTok Params HdrSchema Version FH : Type}

/-- Constructor `DecodedMessageBody::new` (lines 63–77): detokenize the decoded tokens
(a detokenization failure is a terminal decode error) and assemble the
result. -/
def DecodedMessageBody.new (C : Collab Slice Token Value HdrTok Params HdrSchema Version FH)
    (body_type : MessageBodyType) (decoded : DecodedMessage Token) (header : Option FH) :
    Except ClientError (DecodedMessageBody Value FH) :=
  match C.detokenize decoded.tokens with
  | .error x => .error (Error.invalid_message_for_decode x)
  | .ok value =>
    .ok { body_type := body_type, name := decoded.function_name,
          value := some value, header := header }

/-- The schema-mismatch error text (lines 146–147).  The Rust string literal
spans two source lines, so besides the `\n` escape it contains the literal
line break and the continuation line's indentation. -/
def schemaMismatchMessage : String :=
  "The message body does not match the specified ABI.\n\n                Tip: Please check that you specified message's body, not full BOC."

/-- Lines 123–149 of `DecodedMessageBody::decode`: the output/input trial
classifier.  Each trial is applied to `body` itself: the source passes
`body.clone()` to each trial, so every trial sees the original unconsumed
cursor. -/
def DecodedMessageBody.classify (C : Collab Slice Token Value HdrTok Params HdrSchema Version FH)
    (abi : AbiContract Slice Token Params HdrSchema Version)
    (body : Slice) (is_internal : Bool) ( allow_partial : Bool) :
    Except ClientError (DecodedMessageBody Value FH) :=
  match abi.decode_output body is_internal allow_partial with
  | .ok output =>
    if abi.events_contains output.function_name then
      DecodedMessageBody.new C .Event output none
    else
      DecodedMessageBody.new C .Output output none
  | .error _ =>
    match abi.decode_input body is_internal allow_partial with
    | .ok input =>
      match C.decode_header abi.version body abi.header is_internal with
      | .error err =>
        .error (Error.invalid_message_for_decode ("Can't decode function header: " ++ err))
      | .ok header =>
        match C.header_from header with
        | .error e => .error e
        | .ok fh => DecodedMessageBody.new C .Input input fh
    | .error _ =>
      .error (Error.invalid_message_for_decode schemaMismatchMessage)

/-- Function `DecodedMessageBody::decode` (lines 79–150).  The responsible-reply
matcher runs first, on a clone of the body (`let mut body = body.clone()`);
when it does not return, control falls through to the classifier with the
original `body`. -/
def DecodedMessageBody.decode [DecidableEq Addr]
    (C : Collab Slice Token Value HdrTok Params HdrSchema Version FH)
    (abi : AbiContract Slice Token Params HdrSchema Version)
    (responsible : Option (ResponsibleCall Params Addr))
    (body : Slice) (is_internal : Bool) (internal_dst : Option Addr)
    ( allow_partial : Bool) :
    Except ClientError (DecodedMessageBody Value FH) :=
  match internal_dst, responsible with
  | some dst, some resp =>
    if is_internal ∧ dst = resp.src then
      match C.get_next_u32 body with
      | .error err =>
        .error (Error.invalid_message_for_decode ("Can't decode function header: " ++ err))
      | .ok (receiver_func_id, rest) =>
        if receiver_func_id = resp.answer_id then
          match C.decode_params resp.function.output_params rest abi.version allow_partial with
          | .error err =>
            .error (Error.invalid_message_for_decode
              ("Responsible function output can't be decoded: " ++ err))
          | .ok tokens =>
            DecodedMessageBody.new C .InternalOutput
              { function_name := resp.function.name, tokens := tokens } none
        else
          DecodedMessageBody.classify C abi body is_internal allow_partial
    else
      DecodedMessageBody.classify C abi body is_internal allow_partial
  | _, _ => DecodedMessageBody.classify C abi body is_internal allow_partial

/-- Struct `ton_block::Message`, external collaborator, restricted to the three
accessors the entry points use: `body()`, `is_internal()`, `dst_ref()`. -/
structure Message (Slice Addr : Type) where
  body : Option Slice
  is_internal : Bool
  dst_ref : Option Addr

/-- Method `DecodedMessageBody::decode_message` (lines 152–172), after the external
BOC deserialization (`prepare_decode`) has produced the ABI and the message. -/
def DecodedMessageBody.decode_message [DecidableEq Addr]
    (C : Collab Slice Token Value HdrTok Params HdrSchema Version FH)
    (abi : AbiContract Slice Token Params HdrSchema Version)
    (responsible : Option (ResponsibleCall Params Addr))
    (message : Message Slice Addr) ( allow_partial : Bool) :
    Except ClientError (DecodedMessageBody Value FH) :=
  match message.body with
  | some body =>
    DecodedMessageBody.decode C abi responsible body
      message.is_internal message.dst_ref allow_partial
  | none => .error (Error.invalid_message_for_decode "The message body is empty")

/-- Public `decode_message` (lines 195–214), after `prepare_decode`: same as
`DecodedMessageBody::decode_message` but with no responsible context. -/
def decode_message [DecidableEq Addr]
    (C : Collab Slice Token Value HdrTok Params HdrSchema Version FH)
    (abi : AbiContract Slice Token Params HdrSchema Version)
    (message : Message Slice Addr) ( allow_partial : Bool) :
    Except ClientError (DecodedMessageBody Value FH) :=
  match message.body with
  | some body =>
    DecodedMessageBody.decode C abi
      (none : Option (ResponsibleCall Params Addr)) body
      message.is_internal message.dst_ref allow_partial
  | none => .error (Error.invalid_message_for_decode "The message body is empty")

/-- Public `decode_message_body` (lines 239–254), after the ABI load and the
body-BOC deserialization: no responsible context and no destination address.
`Addr` is explicit because neither argument mentions it. -/
def decode_message_body (Addr : Type) [DecidableEq Addr]
    (C : Collab Slice Token Value HdrTok Params HdrSchema Version FH)
    (abi : AbiContract Slice Token Params HdrSchema Version)
    (body : Slice) (is_internal : Bool) ( allow_partial : Bool) :
    Except ClientError (DecodedMessageBody Value FH) :=
  DecodedMessageBody.decode C abi
    (none : Option (ResponsibleCall Params Addr)) body
    is_internal (none : Option Addr) allow_partial

/-- The responsible-reply matcher does not short-circuit `decode`: either its
entry conditions fail (no responsible context, no destination, external
message, or addresses differ), or the selector read succeeds and the selector
differs from the context's answer selector. -/
def respFallsThrough [DecidableEq Addr]
    (C : Collab Slice Token Value HdrTok Params HdrSchema Version FH)
    (responsible : Option (ResponsibleCall Params Addr))
    (body : Slice) (is_internal : Bool) (internal_dst : Option Addr) : Prop :=
  match internal_dst, responsible with
  | some dst, some resp =>
    (is_internal ∧ dst = resp.src) →
      ∃ id rest, C.get_next_u32 body = .ok (id, rest) ∧ id ≠ resp.answer_id
  | _, _ => True

/-- When the responsible-reply matcher falls through, `decode` is exactly the
classifier applied to the original body. -/
theorem decode_eq_classify [DecidableEq Addr]
    (C : Collab Slice Token Value HdrTok Params HdrSchema Version FH)
    (abi : AbiContract Slice Token Params HdrSchema Version)
    (responsible : Option (ResponsibleCall Params Addr))
    (body : Slice) (is_internal : Bool) (internal_dst : Option Addr)
    ( allow_partial : Bool)
    (h : respFallsThrough C responsible body is_internal internal_dst) :
    DecodedMessageBody.decode C abi responsible body is_internal internal_dst allow_partial =
      DecodedMessageBody.classify C abi body is_internal allow_partial := by
  cases internal_dst with
  | none => rfl
  | some dst =>
    cases responsible with
    | none => rfl
    | some resp =>
      simp only [respFallsThrough] at h
      simp only [DecodedMessageBody.decode]
      by_cases hg : (is_internal : Prop) ∧ dst = resp.src
      · obtain ⟨id, rest, hread, hne⟩ := h hg
        rw [if_pos hg, hread]
        simp [hne]
      · rw [if_neg hg]

/-- Concrete collaborator instantiation for witnesses: a body is a list of
numbers, the selector read takes the head, parameter decoding returns the
remaining items as tokens, detokenization counts them. -/
def CW : Collab (List Nat) Nat Nat Unit Unit Unit Unit Unit where
  get_next_u32 := fun s =>
    match s with
    | [] => .error "failed to read u32"
    | x :: rest => .ok (x, rest)
  decode_params := fun _ s _ _ => .ok s
  decode_header := fun _ _ _ _ => .ok ()
  detokenize := fun ts => .ok ts.length
  header_from := fun _ => .ok (some ())

/-- Concrete ABI descriptor for witnesses: output selector 7 matches function
"f", output selector 9 matches "e" (also an event), input selector 8 matches
function "g"; the event table contains only "e". -/
def abiW : AbiContract (List Nat) Nat Unit Unit Unit where
  version := ()
  header := ()
  decode_output := fun s _ _ =>
    if s = [7] then .ok { function_name := "f", tokens := [1, 2] }
    else if s = [9] then .ok { function_name := "e", tokens := [] }
    else .error "no output match"
  decode_input := fun s _ _ =>
    if s = [8] then .ok { function_name := "g", tokens := [3] }
    else if s = [7] then .ok { function_name := "h", tokens := [4] }
    else .error "no input match"
  events_contains := fun n => n == "e"

/-- Concrete responsible-call context for witnesses: source address 5,
answer selector 42. -/
def respW : ResponsibleCall Unit Nat where
  function := { name := "rf", output_params := () }
  src := 5
  answer_id := 42

example :
    DecodedMessageBody.decode CW abiW (some respW) [42, 1, 2, 3] true (some 5) false =
      .ok { body_type := .InternalOutput, name := "rf", value := some 3, header := none } := rfl

example :
    DecodedMessageBody.decode CW abiW (some respW) [7] true (some 9) false =
      .ok { body_type := .Output, name := "f", value := some 2, header := none } := rfl

example :
    decode_message_body Nat CW abiW [8] false false =
      .ok { body_type := .Input, name := "g", value := some 1, header := some () } := rfl

example :
    decode_message_body Nat CW abiW [0] false false =
      .error (Error.invalid_message_for_decode schemaMismatchMessage) := rfl

/-- No header-read error can collide with the schema-mismatch error: the two
message texts start with different characters, whatever the collaborator's
error text is. -/
theorem header_err_ne_mismatch (err : String) :
    ("Can't decode function header: " ++ err) ≠ schemaMismatchMessage := by
  intro h
  have h3 := congrArg String.data h
  rw [String.data_append] at h3
  have h4 := congrArg List.head? h3
  simp [schemaMismatchMessage] at h4

/-- C1: with a responsible context, an internal message whose destination
equals the context's source, and a leading selector equal to the answer
selector, `decode` decodes the rest of the body against the responsible
function's output schema under the caller's partial-decode flag; success
yields an `InternalOutput` result carrying the responsible function's name
and no header, and a parameter-decode failure is a terminal error — in both
cases independent of the output/input trial classifier. -/
theorem responsible_reply_precedence [DecidableEq Addr]
    (C : Collab Slice Token Value HdrTok Params HdrSchema Version FH)
    (abi : AbiContract Slice Token Params HdrSchema Version)
    (resp : ResponsibleCall Params Addr) (body : Slice) (dst : Addr)
    ( allow_partial : Bool) (id : Nat) (rest : Slice)
    (hdst : dst = resp.src)
    (hread : C.get_next_u32 body = .ok (id, rest))
    (hid : id = resp.answer_id) :
    (∀ tokens v,
      C.decode_params resp.function.output_params rest abi.version allow_partial = .ok tokens →
      C.detokenize tokens = .ok v →
      DecodedMessageBody.decode C abi (some resp) body true (some dst) allow_partial =
        .ok { body_type := .InternalOutput, name := resp.function.name,
              value := some v, header := none }) ∧
    (∀ err,
      C.decode_params resp.function.output_params rest abi.version allow_partial = .error err →
      DecodedMessageBody.decode C abi (some resp) body true (some dst) allow_partial =
        .error (Error.invalid_message_for_decode
          ("Responsible function output can't be decoded: " ++ err))) := by
  subst hdst hid
  constructor
  · intro tokens v hdec hdet
    simp [DecodedMessageBody.decode, hread, hdec, DecodedMessageBody.new, hdet]
  · intro err hdec
    simp [DecodedMessageBody.decode, hread, hdec]

theorem responsible_reply_precedence_witness :
    DecodedMessageBody.decode CW abiW (some respW) [42, 1, 2] true (some 5) false =
      .ok { body_type := .InternalOutput, name := "rf", value := some 2, header := none } :=
  (responsible_reply_precedence CW abiW respW [42, 1, 2] 5 false 42 [1, 2]
    rfl rfl rfl).1 [1, 2] 2 rfl rfl

/-- C2: with a responsible context, an internal message and destination equal
to the context's source, a body too short for the leading selector makes
`decode` fail immediately with the malformed-selector error, which is
distinct from the schema-mismatch error; the classifier is never reached. -/
theorem responsible_short_body_terminal [DecidableEq Addr]
    (C : Collab Slice Token Value HdrTok Params HdrSchema Version FH)
    (abi : AbiContract Slice Token Params HdrSchema Version)
    (resp : ResponsibleCall Params Addr) (body : Slice) (dst : Addr)
    ( allow_partial : Bool) (err : String)
    (hdst : dst = resp.src)
    (hread : C.get_next_u32 body = .error err) :
    DecodedMessageBody.decode C abi (some resp) body true (some dst) allow_partial =
      .error (Error.invalid_message_for_decode ("Can't decode function header: " ++ err)) ∧
    Error.invalid_message_for_decode ("Can't decode function header: " ++ err) ≠
      Error.invalid_message_for_decode schemaMismatchMessage := by
  subst hdst
  refine ⟨?_, ?_⟩
  · simp [DecodedMessageBody.decode, hread]
  · intro h
    exact header_err_ne_mismatch err (congrArg ClientError.message h)

theorem responsible_short_body_terminal_witness :
    DecodedMessageBody.decode CW abiW (some respW) [] true (some 5) false =
      .error (Error.invalid_message_for_decode
        ("Can't decode function header: " ++ "failed to read u32")) ∧
    Error.invalid_message_for_decode ("Can't decode function header: " ++ "failed to read u32") ≠
      Error.invalid_message_for_decode schemaMismatchMessage :=
  responsible_short_body_terminal CW abiW respW [] 5 false "failed to read u32" rfl rfl

/-- C3: with a responsible context whose entry conditions hold but whose read
selector differs from the answer selector, `decode` equals the output/input
trial classifier applied to the original, fully unconsumed body (the
matcher's selector read happened on a clone and is invisible to the trials,
each of which again receives the original cursor). -/
theorem responsible_non_match_falls_through [DecidableEq Addr]
    (C : Collab Slice Token Value HdrTok Params HdrSchema Version FH)
    (abi : AbiContract Slice Token Params HdrSchema Version)
    (resp : ResponsibleCall Params Addr) (body : Slice) (dst : Addr)
    ( allow_partial : Bool) (id : Nat) (rest : Slice)
    (hdst : dst = resp.src)
    (hread : C.get_next_u32 body = .ok (id, rest))
    (hne : id ≠ resp.answer_id) :
    DecodedMessageBody.decode C abi (some resp) body true (some dst) allow_partial =
      DecodedMessageBody.classify C abi body true allow_partial := by
  subst hdst
  simp [DecodedMessageBody.decode, hread, hne]

theorem responsible_non_match_falls_through_witness :
    DecodedMessageBody.decode CW abiW (some respW) [7] true (some 5) false =
      DecodedMessageBody.classify CW abiW [7] true false :=
  responsible_non_match_falls_through CW abiW respW [7] 5 false 7 []
    rfl rfl (by decide)

/-- C4: when the responsible matcher falls through and the body decodes both
as some function's output and as some function's input, `decode` goes through
the output branch (Event when the matched name is an event, Output otherwise)
and never yields an Input-typed result. -/
theorem output_trial_before_input_trial [DecidableEq Addr]
    (C : Collab Slice Token Value HdrTok Params HdrSchema Version FH)
    (abi : AbiContract Slice Token Params HdrSchema Version)
    (responsible : Option (ResponsibleCall Params Addr))
    (body : Slice) (is_internal : Bool) (internal_dst : Option Addr)
    ( allow_partial : Bool) (out inp : DecodedMessage Token)
    (hft : respFallsThrough C responsible body is_internal internal_dst)
    (hout : abi.decode_output body is_internal allow_partial = .ok out)
    (hinp : abi.decode_input body is_internal allow_partial = .ok inp) :
    DecodedMessageBody.decode C abi responsible body is_internal internal_dst allow_partial =
      (if abi.events_contains out.function_name then
        DecodedMessageBody.new C .Event out none
      else
        DecodedMessageBody.new C .Output out none) ∧
    ∀ r, DecodedMessageBody.decode C abi responsible body is_internal internal_dst allow_partial =
        .ok r →
      (r.body_type = .Event ∨ r.body_type = .Output) ∧ r.body_type ≠ .Input := by
  have he := decode_eq_classify C abi responsible body is_internal internal_dst allow_partial hft
  have h1 : DecodedMessageBody.decode C abi responsible body is_internal internal_dst allow_partial =
      (if abi.events_contains out.function_name then
        DecodedMessageBody.new C .Event out none
      else
        DecodedMessageBody.new C .Output out none) := by
    rw [he]
    unfold DecodedMessageBody.classify
    rw [hout]
  refine ⟨h1, ?_⟩
  · intro r hr
    rw [h1] at hr
    unfold DecodedMessageBody.new at hr
    by_cases hev : abi.events_contains out.function_name = true
    · rw [if_pos hev] at hr
      cases hd : C.detokenize out.tokens with
      | error x => rw [hd] at hr; exact Except.noConfusion hr
      | ok v =>
        rw [hd] at hr
        injection hr with hr2
        subst hr2
        simp
    · rw [if_neg hev] at hr
      cases hd : C.detokenize out.tokens with
      | error x => rw [hd] at hr; exact Except.noConfusion hr
      | ok v =>
        rw [hd] at hr
        injection hr with hr2
        subst hr2
        simp

theorem output_trial_before_input_trial_witness :
    DecodedMessageBody.decode CW abiW (none : Option (ResponsibleCall Unit Nat)) [7]
        false none false =
      .ok { body_type := .Output, name := "f", value := some 2, header := none } ∧
    ∀ r, DecodedMessageBody.decode CW abiW (none : Option (ResponsibleCall Unit Nat)) [7]
        false none false = .ok r →
      (r.body_type = .Event ∨ r.body_type = .Output) ∧ r.body_type ≠ .Input :=
  output_trial_before_input_trial CW abiW none [7] false none false
    { function_name := "f", tokens := [1, 2] } { function_name := "h", tokens := [4] }
    True.intro rfl rfl

/-- C5: when the responsible matcher falls through, the output trial succeeds
with matched name N and detokenization succeeds, `decode` returns Event if N
is in the descriptor's event table and Output otherwise, in both cases with
name N (and no header). -/
theorem output_success_event_or_output [DecidableEq Addr]
    (C : Collab Slice Token Value HdrTok Params HdrSchema Version FH)
    (abi : AbiContract Slice Token Params HdrSchema Version)
    (responsible : Option (ResponsibleCall Params Addr))
    (body : Slice) (is_internal : Bool) (internal_dst : Option Addr)
    ( allow_partial : Bool) (out : DecodedMessage Token) (v : Value)
    (hft : respFallsThrough C responsible body is_internal internal_dst)
    (hout : abi.decode_output body is_internal allow_partial = .ok out)
    (hdet : C.detokenize out.tokens = .ok v) :
    (abi.events_contains out.function_name = true →
      DecodedMessageBody.decode C abi responsible body is_internal internal_dst allow_partial =
        .ok { body_type := .Event, name := out.function_name,
              value := some v, header := none }) ∧
    (abi.events_contains out.function_name = false →
      DecodedMessageBody.decode C abi responsible body is_internal internal_dst allow_partial =
        .ok { body_type := .Output, name := out.function_name,
              value := some v, header := none }) := by
  have he := decode_eq_classify C abi responsible body is_internal internal_dst allow_partial hft
  constructor <;> intro hev <;> rw [he] <;>
    simp [DecodedMessageBody.classify, hout, hev, DecodedMessageBody.new, hdet]

theorem output_success_event_or_output_witness :
    (abiW.events_contains "e" = true →
      DecodedMessageBody.decode CW abiW (none : Option (ResponsibleCall Unit Nat)) [9]
          true none false =
        .ok { body_type := .Event, name := "e", value := some 0, header := none }) ∧
    (abiW.events_contains "e" = false →
      DecodedMessageBody.decode CW abiW (none : Option (ResponsibleCall Unit Nat)) [9]
          true none false =
        .ok { body_type := .Output, name := "e", value := some 0, header := none }) :=
  output_success_event_or_output CW abiW none [9] true none false
    { function_name := "e", tokens := [] } 0 True.intro rfl rfl

/-- C6: when the responsible matcher falls through (and no collaborator error
text collides with the fixed schema-mismatch text), `decode` returns the
schema-mismatch error — "The message body does not match the specified ABI"
with the full-BOC tip — exactly when both the output trial and the input
trial fail. -/
theorem schema_mismatch_iff_both_trials_fail [DecidableEq Addr]
    (C : Collab Slice Token Value HdrTok Params HdrSchema Version FH)
    (abi : AbiContract Slice Token Params HdrSchema Version)
    (responsible : Option (ResponsibleCall Params Addr))
    (body : Slice) (is_internal : Bool) (internal_dst : Option Addr)
    ( allow_partial : Bool)
    (hft : respFallsThrough C responsible body is_internal internal_dst)
    (hdetok : ∀ tokens e, C.detokenize tokens = .error e → e ≠ schemaMismatchMessage)
    (hhdr : ∀ ht e, C.header_from ht = .error e → e.message ≠ schemaMismatchMessage) :
    ((∃ e, abi.decode_output body is_internal allow_partial = .error e) ∧
     (∃ e, abi.decode_input body is_internal allow_partial = .error e)) ↔
    DecodedMessageBody.decode C abi responsible body is_internal internal_dst allow_partial =
      .error (Error.invalid_message_for_decode schemaMismatchMessage) := by
  have he := decode_eq_classify C abi responsible body is_internal internal_dst allow_partial hft
  rw [he]
  constructor
  · rintro ⟨⟨e1, h1⟩, ⟨e2, h2⟩⟩
    simp [DecodedMessageBody.classify, h1, h2]
  · intro h
    cases ho : abi.decode_output body is_internal allow_partial with
    | error e1 =>
      cases hi : abi.decode_input body is_internal allow_partial with
      | error e2 => exact ⟨⟨e1, rfl⟩, ⟨e2, rfl⟩⟩
      | ok inp =>
        exfalso
        cases hh : C.decode_header abi.version body abi.header is_internal with
        | error err =>
          simp [DecodedMessageBody.classify, ho, hi, hh,
            Error.invalid_message_for_decode] at h
          exact header_err_ne_mismatch err h
        | ok ht =>
          cases hf : C.header_from ht with
          | error e =>
            simp [DecodedMessageBody.classify, ho, hi, hh, hf,
              Error.invalid_message_for_decode] at h
            exact hhdr ht e hf (by rw [h])
          | ok fh =>
            cases hd : C.detokenize inp.tokens with
            | error x =>
              simp [DecodedMessageBody.classify, ho, hi, hh, hf,
                DecodedMessageBody.new, hd, Error.invalid_message_for_decode] at h
              exact hdetok inp.tokens x hd h
            | ok v =>
              simp [DecodedMessageBody.classify, ho, hi, hh, hf,
                DecodedMessageBody.new, hd] at h
    | ok out =>
      exfalso
      cases hd : C.detokenize out.tokens with
      | error x =>
        by_cases hev : abi.events_contains out.function_name
        all_goals
          simp [DecodedMessageBody.classify, ho, hev,
            DecodedMessageBody.new, hd, Error.invalid_message_for_decode] at h
        all_goals exact hdetok out.tokens x hd h
      | ok v =>
        by_cases hev : abi.events_contains out.function_name
        all_goals
          simp [DecodedMessageBody.classify, ho, hev,
            DecodedMessageBody.new, hd] at h

theorem schema_mismatch_iff_both_trials_fail_witness :
    ((∃ e, abiW.decode_output [0] false false = .error e) ∧
     (∃ e, abiW.decode_input [0] false false = .error e)) ↔
    DecodedMessageBody.decode CW abiW (none : Option (ResponsibleCall Unit Nat)) [0]
        false none false =
      .error (Error.invalid_message_for_decode schemaMismatchMessage) :=
  schema_mismatch_iff_both_trials_fail CW abiW none [0] false none false
    True.intro (fun _ _ h => Except.noConfusion h) (fun _ _ h => Except.noConfusion h)

/-- Inversion for `DecodedMessageBody.new`: a successful assembly keeps the
requested body type and header. -/
theorem new_ok_shape
    (C : Collab Slice Token Value HdrTok Params HdrSchema Version FH)
    (bt : MessageBodyType) (dm : DecodedMessage Token) (hdr : Option FH)
    (r : DecodedMessageBody Value FH)
    (h : DecodedMessageBody.new C bt dm hdr = .ok r) :
    r.body_type = bt ∧ r.header = hdr := by
  unfold DecodedMessageBody.new at h
  cases hd : C.detokenize dm.tokens with
  | error x => rw [hd] at h; exact Except.noConfusion h
  | ok v =>
    rw [hd] at h
    injection h with h2
    subst h2
    exact ⟨rfl, rfl⟩

/-- Inversion for a successful classifier run: the result is an Event or
Output with no header, or an Input whose header was decoded separately by the
collaborator's header decoder from the descriptor's header schema, protocol
version and internal flag. -/
theorem classify_ok_inv
    (C : Collab Slice Token Value HdrTok Params HdrSchema Version FH)
    (abi : AbiContract Slice Token Params HdrSchema Version)
    (body : Slice) (is_internal : Bool) ( allow_partial : Bool)
    (r : DecodedMessageBody Value FH)
    (h : DecodedMessageBody.classify C abi body is_internal allow_partial = .ok r) :
    ((r.body_type = .Event ∨ r.body_type = .Output) ∧ r.header = none) ∨
    (r.body_type = .Input ∧
      ∃ ht, C.decode_header abi.version body abi.header is_internal = .ok ht ∧
        C.header_from ht = .ok r.header) := by
  cases ho : abi.decode_output body is_internal allow_partial with
  | ok out =>
    by_cases hev : abi.events_contains out.function_name = true
    · have h2 : DecodedMessageBody.new C .Event out none = .ok r := by
        simpa [DecodedMessageBody.classify, ho, hev] using h
      obtain ⟨hbt, hhd⟩ := new_ok_shape C .Event out none r h2
      exact Or.inl ⟨Or.inl hbt, hhd⟩
    · have h2 : DecodedMessageBody.new C .Output out none = .ok r := by
        simpa [DecodedMessageBody.classify, ho, hev] using h
      obtain ⟨hbt, hhd⟩ := new_ok_shape C .Output out none r h2
      exact Or.inl ⟨Or.inr hbt, hhd⟩
  | error e1 =>
    cases hi : abi.decode_input body is_internal allow_partial with
    | error e2 =>
      exact absurd h (by simp [DecodedMessageBody.classify, ho, hi])
    | ok inp =>
      cases hh : C.decode_header abi.version body abi.header is_internal with
      | error err => exact absurd h (by simp [DecodedMessageBody.classify, ho, hi, hh])
      | ok ht =>
        cases hf : C.header_from ht with
        | error e => exact absurd h (by simp [DecodedMessageBody.classify, ho, hi, hh, hf])
        | ok fh =>
          have h2 : DecodedMessageBody.new C .Input inp fh = .ok r := by
            simpa [DecodedMessageBody.classify, ho, hi, hh, hf] using h
          obtain ⟨hbt, hhd⟩ := new_ok_shape C .Input inp fh r h2
          exact Or.inr ⟨hbt, ht, rfl, by rw [hhd]; exact hf⟩

/-- An absent responsible context always lets the matcher fall through. -/
theorem respFallsThrough_none [DecidableEq Addr]
    (C : Collab Slice Token Value HdrTok Params HdrSchema Version FH)
    (body : Slice) (is_internal : Bool) (internal_dst : Option Addr) :
    respFallsThrough C (none : Option (ResponsibleCall Params Addr))
      body is_internal internal_dst := by
  cases internal_dst <;> trivial

/-- The classifier never builds an InternalOutput result. -/
theorem classify_ok_ne_internal
    (C : Collab Slice Token Value HdrTok Params HdrSchema Version FH)
    (abi : AbiContract Slice Token Params HdrSchema Version)
    (body : Slice) (is_internal : Bool) ( allow_partial : Bool)
    (r : DecodedMessageBody Value FH)
    (h : DecodedMessageBody.classify C abi body is_internal allow_partial = .ok r) :
    r.body_type ≠ .InternalOutput := by
  rcases classify_ok_inv C abi body is_internal allow_partial r h with ⟨hbt, _⟩ | ⟨hbt, _⟩
  · rcases hbt with h1 | h1 <;> rw [h1] <;> decide
  · rw [hbt]; decide

/-- Inversion for a successful `decode` run: an Event, Output or
InternalOutput result carries no header; an Input result carries the header
decoded separately by the collaborator's header decoder. -/
theorem decode_ok_inv [DecidableEq Addr]
    (C : Collab Slice Token Value HdrTok Params HdrSchema Version FH)
    (abi : AbiContract Slice Token Params HdrSchema Version)
    (responsible : Option (ResponsibleCall Params Addr))
    (body : Slice) (is_internal : Bool) (internal_dst : Option Addr)
    ( allow_partial : Bool) (r : DecodedMessageBody Value FH)
    (h : DecodedMessageBody.decode C abi responsible body is_internal internal_dst allow_partial =
      .ok r) :
    ((r.body_type = .Event ∨ r.body_type = .Output ∨ r.body_type = .InternalOutput) ∧
      r.header = none) ∨
    (r.body_type = .Input ∧
      ∃ ht, C.decode_header abi.version body abi.header is_internal = .ok ht ∧
        C.header_from ht = .ok r.header) := by
  have hmap : DecodedMessageBody.classify C abi body is_internal allow_partial = .ok r →
      (((r.body_type = .Event ∨ r.body_type = .Output ∨ r.body_type = .InternalOutput) ∧
        r.header = none) ∨
      (r.body_type = .Input ∧
        ∃ ht, C.decode_header abi.version body abi.header is_internal = .ok ht ∧
          C.header_from ht = .ok r.header)) := by
    intro hc
    rcases classify_ok_inv C abi body is_internal allow_partial r hc with ⟨hbt, hhd⟩ | hin
    · exact Or.inl ⟨hbt.imp id Or.inl, hhd⟩
    · exact Or.inr hin
  cases internal_dst with
  | none => exact hmap h
  | some dst =>
    cases responsible with
    | none => exact hmap h
    | some resp =>
      by_cases hg : (is_internal : Prop) ∧ dst = resp.src
      · cases hread : C.get_next_u32 body with
        | error err =>
          exact absurd h (by simp [DecodedMessageBody.decode, hg, hread])
        | ok pr =>
          obtain ⟨id, rest⟩ := pr
          by_cases hid : id = resp.answer_id
          · cases hdp : C.decode_params resp.function.output_params rest abi.version allow_partial with
            | error err =>
              exact absurd h (by simp [DecodedMessageBody.decode, hg, hread, hid, hdp])
            | ok tokens =>
              have h2 : DecodedMessageBody.new C .InternalOutput
                  { function_name := resp.function.name, tokens := tokens } none = .ok r := by
                simpa [DecodedMessageBody.decode, hg, hread, hid, hdp] using h
              obtain ⟨hbt, hhd⟩ := new_ok_shape C .InternalOutput
                { function_name := resp.function.name, tokens := tokens } none r h2
              exact Or.inl ⟨Or.inr (Or.inr hbt), hhd⟩
          · exact hmap (by simpa [DecodedMessageBody.decode, hg, hread, hid] using h)
      · exact hmap (by simpa [DecodedMessageBody.decode, hg] using h)

/-- C7: the envelope-based entry points return the "message body is empty"
error whenever the deserialized message carries no body, without reaching the
decoder, and this error is distinct from the schema-mismatch error. -/
theorem empty_body_error [DecidableEq Addr]
    (C : Collab Slice Token Value HdrTok Params HdrSchema Version FH)
    (abi : AbiContract Slice Token Params HdrSchema Version)
    (responsible : Option (ResponsibleCall Params Addr))
    (message : Message Slice Addr) ( allow_partial : Bool)
    (h : message.body = none) :
    DecodedMessageBody.decode_message C abi responsible message allow_partial =
      .error (Error.invalid_message_for_decode "The message body is empty") ∧
    decode_message C abi message allow_partial =
      .error (Error.invalid_message_for_decode "The message body is empty") ∧
    Error.invalid_message_for_decode "The message body is empty" ≠
      Error.invalid_message_for_decode schemaMismatchMessage := by
  refine ⟨?_, ?_, by decide⟩
  · unfold DecodedMessageBody.decode_message
    rw [h]
  · unfold decode_message
    rw [h]

/-- The empty message used by the C7 witness. -/
def msgEmptyW : Message (List Nat) Nat where
  body := none
  is_internal := false
  dst_ref := none

theorem empty_body_error_witness :
    DecodedMessageBody.decode_message CW abiW (none : Option (ResponsibleCall Unit Nat))
        msgEmptyW false =
      .error (Error.invalid_message_for_decode "The message body is empty") ∧
    decode_message CW abiW msgEmptyW false =
      .error (Error.invalid_message_for_decode "The message body is empty") ∧
    Error.invalid_message_for_decode "The message body is empty" ≠
      Error.invalid_message_for_decode schemaMismatchMessage :=
  empty_body_error CW abiW none msgEmptyW false rfl

/-- C8: a successful decode carries a header only when classified Input, in
which case the header is the one decoded separately by the collaborator's
header decoder from the descriptor's header schema, protocol version and
internal flag; every Output, Event or InternalOutput result has no header. -/
theorem header_only_for_input [DecidableEq Addr]
    (C : Collab Slice Token Value HdrTok Params HdrSchema Version FH)
    (abi : AbiContract Slice Token Params HdrSchema Version)
    (responsible : Option (ResponsibleCall Params Addr))
    (body : Slice) (is_internal : Bool) (internal_dst : Option Addr)
    ( allow_partial : Bool) (r : DecodedMessageBody Value FH)
    (h : DecodedMessageBody.decode C abi responsible body is_internal internal_dst allow_partial =
      .ok r) :
    (r.body_type ≠ .Input → r.header = none) ∧
    (r.body_type = .Input →
      ∃ ht, C.decode_header abi.version body abi.header is_internal = .ok ht ∧
        C.header_from ht = .ok r.header) := by
  rcases decode_ok_inv C abi responsible body is_internal internal_dst allow_partial r h with
    ⟨hbt, hhd⟩ | ⟨hbt, hex⟩
  · constructor
    · intro _; exact hhd
    · intro hI
      rcases hbt with h1 | h1 | h1 <;> rw [h1] at hI <;> exact MessageBodyType.noConfusion hI
  · constructor
    · intro hne; exact absurd hbt hne
    · intro _; exact hex

theorem header_only_for_input_witness :
    (({ body_type := .Input, name := "g", value := some 1, header := some () } :
        DecodedMessageBody Nat Unit).body_type ≠ .Input →
      ({ body_type := .Input, name := "g", value := some 1, header := some () } :
        DecodedMessageBody Nat Unit).header = none) ∧
    (({ body_type := .Input, name := "g", value := some 1, header := some () } :
        DecodedMessageBody Nat Unit).body_type = .Input →
      ∃ ht, CW.decode_header abiW.version [8] abiW.header false = .ok ht ∧
        CW.header_from ht = .ok (some ())) :=
  header_only_for_input CW abiW (none : Option (ResponsibleCall Unit Nat)) [8] false none false
    { body_type := .Input, name := "g", value := some 1, header := some () } rfl

/-- C9: decoding is deterministic and side-effect free: the embedding of the
decoder and of both public entry points is a pure function of the argument
tuple (the source takes shared references and probes the body only through
clones), so repeated invocations on the same inputs return identical
results. -/
theorem decode_deterministic [DecidableEq Addr]
    (C : Collab Slice Token Value HdrTok Params HdrSchema Version FH)
    (abi : AbiContract Slice Token Params HdrSchema Version)
    (responsible : Option (ResponsibleCall Params Addr))
    (body : Slice) (is_internal : Bool) (internal_dst : Option Addr)
    ( allow_partial : Bool) (message : Message Slice Addr) :
    (DecodedMessageBody.decode C abi responsible body is_internal internal_dst allow_partial =
      DecodedMessageBody.decode C abi responsible body is_internal internal_dst allow_partial) ∧
    (decode_message C abi message allow_partial =
      decode_message C abi message allow_partial) ∧
    (decode_message_body Addr C abi body is_internal allow_partial =
      decode_message_body Addr C abi body is_internal allow_partial) :=
  ⟨rfl, rfl, rfl⟩

/-- The message used by the C10 witness: body present, external, no
destination. -/
def msgOutW : Message (List Nat) Nat where
  body := some [7]
  is_internal := false
  dst_ref := none

/-- C10: the public entry points `decode_message` and `decode_message_body`
pass no responsible context (and `decode_message_body` no destination
address), so the responsible-reply path is unreachable and neither ever
returns an InternalOutput-typed result. -/
theorem entry_points_never_internal_output [DecidableEq Addr]
    (C : Collab Slice Token Value HdrTok Params HdrSchema Version FH)
    (abi : AbiContract Slice Token Params HdrSchema Version)
    (message : Message Slice Addr) (body : Slice)
    (is_internal : Bool) ( allow_partial : Bool)
    (r r' : DecodedMessageBody Value FH) :
    (decode_message C abi message allow_partial = .ok r →
      r.body_type ≠ .InternalOutput) ∧
    (decode_message_body Addr C abi body is_internal allow_partial = .ok r' →
      r'.body_type ≠ .InternalOutput) := by
  constructor
  · intro h
    unfold decode_message at h
    cases hb : message.body with
    | none => rw [hb] at h; exact Except.noConfusion h
    | some body0 =>
      rw [hb] at h
      have h2 : DecodedMessageBody.decode C abi
          (none : Option (ResponsibleCall Params Addr)) body0
          message.is_internal message.dst_ref allow_partial = .ok r := h
      rw [decode_eq_classify C abi _ body0 message.is_internal message.dst_ref allow_partial
        (respFallsThrough_none C body0 message.is_internal message.dst_ref)] at h2
      exact classify_ok_ne_internal C abi body0 message.is_internal allow_partial r h2
  · intro h
    unfold decode_message_body at h
    rw [decode_eq_classify C abi _ body is_internal (none : Option Addr) allow_partial
      (respFallsThrough_none C body is_internal none)] at h
    exact classify_ok_ne_internal C abi body is_internal allow_partial r' h

theorem entry_points_never_internal_output_witness :
    (({ body_type := .Output, name := "f", value := some 2, header := none } :
        DecodedMessageBody Nat Unit).body_type ≠ .InternalOutput) ∧
    (({ body_type := .Input, name := "g", value := some 1, header := some () } :
        DecodedMessageBody Nat Unit).body_type ≠ .InternalOutput) :=
  ⟨(entry_points_never_internal_output CW abiW msgOutW [7] false false
      { body_type := .Output, name := "f", value := some 2, header := none }
      { body_type := .Input, name := "g", value := some 1, header := some () }).1 rfl,
   (entry_points_never_internal_output CW abiW msgOutW [8] false false
      { body_type := .Output, name := "f", value := some 2, header := none }
      { body_type := .Input, name := "g", value := some 1, header := some () }).2 rfl⟩

end EverSdk
